import Mathlib

/-!
Verification of the zero-copy ICMPv6 Router Solicitation parsing layer
(`src/framework/src/packets/icmp/v6/ndp/router_solicit.rs`) against its
design specification.

Bytes are modelled as natural numbers below 256, buffers as lists of
bytes.  Typed packet views (overlays) keep a reference to the whole
buffer together with an offset and a remaining length, mirroring the
zero-copy design: no accessor copies data, every accessor recomputes its
value from the underlying bytes at call time.
-/

/-- A raw packet buffer: the contiguous bytes of one inbound frame. -/
structure Buf where
  data : List Nat
deriving DecidableEq, Repr

/-- Read the byte at absolute index `i` (0 when out of range; bounds are
established at overlay construction, see `Region` and the parse layers). -/
def Buf.byteAt (b : Buf) (i : Nat) : Nat :=
  b.data.getD i 0

/-- Big-endian interpretation of four bytes, as in `u32::from_be` applied
to the raw payload word of the packed overlay struct. -/
def u32FromBeBytes : List Nat → Nat
  | [b0, b1, b2, b3] => b0 * 2 ^ 24 + b1 * 2 ^ 16 + b2 * 2 ^ 8 + b3
  | _ => 0

/-- Big-endian serialization of a 32-bit value into four bytes, as in
`u32::to_be` before storing into the packed overlay struct. -/
def u32ToBeBytes (v : Nat) : List Nat :=
  [v / 2 ^ 24 % 256, v / 2 ^ 16 % 256, v / 2 ^ 8 % 256, v % 256]

/-- Wire sizes (spec §6): the fixed header lengths of the three layers. -/
def ETHERNET_HEADER_SIZE : Nat := 14

def IPV6_HEADER_SIZE : Nat := 40

/-- ICMPv6 common header: type (1) + code (1) + checksum (2). -/
def ICMPV6_HEADER_SIZE : Nat := 4

/-- Modelled from the spec: the wire-format fixed payload length of the
Router Solicitation message listed in §6 — a single 4-byte reserved
field.  (The wire-format table itself is not part of `src/`.) -/
def wireRouterSolicitationFixedPayloadLen : Nat := 4

/-- The Router Solicitation payload struct from the source:
`pub struct RouterSolicitation { reserved: u32 }` (packed, 4 bytes). -/
structure RouterSolicitation where
  reserved : Nat
deriving DecidableEq, Repr

/-- `#[derive(Default)]` on `RouterSolicitation`: the derived instance
fills the `u32` field with `u32::default() = 0`. -/
def RouterSolicitation.default : RouterSolicitation :=
  { reserved := 0 }

/-- `Icmpv6Payload for RouterSolicitation`: `fn size() -> usize { 4 }`. -/
def RouterSolicitation.size : Nat := 4

/-- The generic ICMPv6 envelope `Icmpv6<P>`: a typed zero-copy view over
the buffer — the common header starts at `offset` and `len` bytes of the
region remain from there.  The payload type is a phantom parameter, as in
the Rust generic. -/
structure Icmpv6 (P : Type) where
  buf : Buf
  offset : Nat
  len : Nat
deriving DecidableEq, Repr

/-- `msg_type()`: the first byte of the ICMPv6 common header. -/
def Icmpv6.msg_type {P : Type} (p : Icmpv6 P) : Nat :=
  p.buf.byteAt p.offset

/-- `code()`: the second byte of the ICMPv6 common header. -/
def Icmpv6.code {P : Type} (p : Icmpv6 P) : Nat :=
  p.buf.byteAt (p.offset + 1)

/-- `checksum()`: the third and fourth bytes of the common header, stored
big-endian on the wire and converted to host order on read. -/
def Icmpv6.checksum {P : Type} (p : Icmpv6 P) : Nat :=
  p.buf.byteAt (p.offset + 2) * 2 ^ 8 + p.buf.byteAt (p.offset + 3)

/-- The four raw wire bytes of the Router Solicitation payload overlay:
the span `[offset + ICMPV6_HEADER_SIZE, offset + ICMPV6_HEADER_SIZE + 4)`
that `payload()` overlays the packed struct onto. -/
def Icmpv6.payloadBytes (p : Icmpv6 RouterSolicitation) : List Nat :=
  [p.buf.byteAt (p.offset + 4), p.buf.byteAt (p.offset + 5),
   p.buf.byteAt (p.offset + 6), p.buf.byteAt (p.offset + 7)]

/-- `Icmpv6Packet::<RouterSolicitation>::payload`: overlays the packed
`RouterSolicitation` struct onto the 4 bytes following the common header.
Composed with `u32::from_be` in `reserved()`, the overlay plus byte-swap
amounts to a big-endian read of the raw wire bytes; the overlay itself is
modelled by exposing those raw bytes. -/
def Icmpv6.payload (p : Icmpv6 RouterSolicitation) : RouterSolicitation :=
  { reserved := u32FromBeBytes p.payloadBytes }

/-- `reserved()`: `u32::from_be(self.payload().reserved)` — the 4 payload
bytes read big-endian, converted at call time, never stored converted. -/
def Icmpv6.reserved (p : Icmpv6 RouterSolicitation) : Nat :=
  (p.payload).reserved

/-- Modelled from the spec (§4.2): the setter matching `reserved()`
writes the host value back as four big-endian bytes into the payload
span.  (No setter appears in the visible fragment; §4.2 and §8 specify
`set_field(T)` as host-to-big-endian on write.) -/
def Icmpv6.set_reserved (p : Icmpv6 RouterSolicitation) (v : Nat) :
    Icmpv6 RouterSolicitation :=
  let bs := u32ToBeBytes v
  { p with
    buf := ⟨((((p.buf.data.set (p.offset + 4) (bs.getD 0 0)).set
        (p.offset + 5) (bs.getD 1 0)).set
        (p.offset + 6) (bs.getD 2 0)).set
        (p.offset + 7) (bs.getD 3 0))⟩ }

/-- The trailing options region: the remainder of the envelope after the
common header and the fixed payload, exposed but not interpreted. -/
def Icmpv6.optionsBytes (p : Icmpv6 RouterSolicitation) : List Nat :=
  ((p.buf.data.drop (p.offset + ICMPV6_HEADER_SIZE + RouterSolicitation.size)).take
    (p.len - (ICMPV6_HEADER_SIZE + RouterSolicitation.size)))

/-- The parse stages of the layered pipeline (spec §4.3, §8): each error
carries the layer at which the pipeline aborted. -/
inductive ParseStage where
  | ethernet
  | ipv6
  | icmpv6Header
  | icmpv6Payload
deriving DecidableEq, Repr

/-- The error taxonomy of spec §7 relevant to the pure parse path. -/
inductive ParseError where
  | TooShort (stage : ParseStage)
  | MalformedHeader (stage : ParseStage)
deriving DecidableEq, Repr

/-- A buffer region (spec §3, §4.1): a borrowed span into the parent
buffer — no data is owned or copied, only `(offset, len)` advance as the
layers consume their fixed headers. -/
structure Region where
  buf : Buf
  offset : Nat
  len : Nat
deriving DecidableEq, Repr

/-- The region covering a whole raw packet buffer. -/
def Region.ofBuf (b : Buf) : Region :=
  { buf := b, offset := 0, len := b.data.length }

/-- Modelled from the spec: the Ethernet layer parse (§4.3, §6 — not part
of `src/`).  It consumes the 14-byte Ethernet header (6 dest MAC + 6 src
MAC + 2 ethertype) and hands the remainder to the next layer, failing
with `TooShort` when the region cannot hold the fixed header. -/
def parseEthernet (r : Region) : Except ParseError Region :=
  if r.len < ETHERNET_HEADER_SIZE then
    .error (.TooShort .ethernet)
  else
    .ok { r with offset := r.offset + ETHERNET_HEADER_SIZE,
                 len := r.len - ETHERNET_HEADER_SIZE }

/-- Modelled from the spec: the IPv6 layer parse (§4.3, §6 — not part of
`src/`).  It requires the 40-byte fixed header, checks the version nibble
of the first byte is 6 (`MalformedHeader` otherwise, the invariant named
in §4.3), and hands the remainder to the next layer. -/
def parseIpv6 (r : Region) : Except ParseError Region :=
  if r.len < IPV6_HEADER_SIZE then
    .error (.TooShort .ipv6)
  else if r.buf.byteAt r.offset / 2 ^ 4 ≠ 6 then
    .error (.MalformedHeader .ipv6)
  else
    .ok { r with offset := r.offset + IPV6_HEADER_SIZE,
                 len := r.len - IPV6_HEADER_SIZE }

/-- Modelled from the spec: parsing the generic ICMPv6 envelope (§4.4 —
not part of `src/`).  The buffer must be at least type + code + checksum
long; the result is a generically-typed view over the same bytes exposing
only the common header fields. -/
def parseIcmpv6 (r : Region) : Except ParseError (Icmpv6 Unit) :=
  if r.len < ICMPV6_HEADER_SIZE then
    .error (.TooShort .icmpv6Header)
  else
    .ok { buf := r.buf, offset := r.offset, len := r.len }

/-- Modelled from the spec: `downcast<P>` (§4.4 — not part of `src/`)
reinterprets the same underlying bytes as carrying payload type `P`; it
performs no copy and no re-validation. -/
def Icmpv6.downcast {P : Type} (p : Icmpv6 Unit) : Icmpv6 P :=
  { buf := p.buf, offset := p.offset, len := p.len }

/-- Modelled from the spec: construction of the fixed-size payload
overlay behind the typed envelope (§4.2 — not part of `src/`): it fails
with `TooShort` when the region past the common header cannot hold
`RouterSolicitation.size` payload bytes. -/
def checkPayloadOverlay (p : Icmpv6 RouterSolicitation) :
    Except ParseError (Icmpv6 RouterSolicitation) :=
  if p.len < ICMPV6_HEADER_SIZE + RouterSolicitation.size then
    .error (.TooShort .icmpv6Payload)
  else
    .ok p

/-- The full parse pipeline of the end-to-end scenario (spec §2, §8):
buffer → Ethernet → IPv6 → generic ICMPv6 envelope → downcast to
`RouterSolicitation` with its payload overlay established. -/
def parseRouterSolicitPipeline (bytes : List Nat) :
    Except ParseError (Icmpv6 RouterSolicitation) := do
  let r0 := Region.ofBuf ⟨bytes⟩
  let r1 ← parseEthernet r0
  let r2 ← parseIpv6 r1
  let env ← parseIcmpv6 r2
  checkPayloadOverlay (Icmpv6.downcast env)

/-- The literal 70-byte Router Solicitation test frame
`ROUTER_SOLICIT_PACKET` from the source (14 Ethernet + 40 IPv6 + 4 ICMPv6
common header + 4 reserved + 8 option bytes). -/
def ROUTER_SOLICIT_PACKET : List Nat :=
  [0x00, 0x00, 0x00, 0x00, 0x00, 0x01,
   0x00, 0x00, 0x00, 0x00, 0x00, 0x02,
   0x86, 0xDD,
   0x60, 0x00, 0x00, 0x00,
   0x00, 0x10,
   0x3a,
   0xff,
   0xfe, 0x80, 0x00, 0x00, 0x00, 0x00, 0x00, 0x00,
   0xd4, 0xf0, 0x45, 0xff, 0xfe, 0x0c, 0x66, 0x4b,
   0xff, 0x02, 0x00, 0x00, 0x00, 0x00, 0x00, 0x00,
   0x00, 0x00, 0x00, 0x00, 0x00, 0x00, 0x00, 0x01,
   0x85,
   0x00,
   0xf5, 0x0c,
   0x00, 0x00, 0x00, 0x00,
   0x01, 0x01, 0x70, 0x3a, 0xcb, 0x1b, 0xf9, 0x7a]

/-- Zero-padded four-digit lowercase hexadecimal: the `{:04x}` format
specifier applied to the 16-bit checksum field. -/
def hex4 (n : Nat) : String :=
  String.mk [Nat.digitChar (n / 4096 % 16), Nat.digitChar (n / 256 % 16),
             Nat.digitChar (n / 16 % 16), Nat.digitChar (n % 16)]

/-- `fmt::Display for Icmpv6<RouterSolicitation>`: renders
`"type: {} code: {} checksum: 0x{:04x} reserved: {}"` with `msg_type()`,
`code()`, `checksum()`, `reserved()` as the four arguments. -/
def Icmpv6.display (p : Icmpv6 RouterSolicitation) : String :=
  "type: " ++ toString p.msg_type ++ " code: " ++ toString p.code ++
    " checksum: 0x" ++ hex4 p.checksum ++ " reserved: " ++ toString p.reserved

/-- Serializing a 32-bit value to big-endian bytes and reading the bytes
back big-endian is the identity: the two conversions are mutual inverses. -/
theorem u32_be_roundtrip (v : Nat) (h : v < 2 ^ 32) :
    u32FromBeBytes (u32ToBeBytes v) = v := by
  simp [u32FromBeBytes, u32ToBeBytes]
  omega

/-- Reading each of four consecutive positions back out of a buffer after
the four writes of a 4-byte field store returns the byte written there,
provided the span lies inside the buffer. -/
theorem getD_write4 (data : List Nat) (o b0 b1 b2 b3 : Nat)
    (h : o + 4 ≤ data.length) :
    ((((data.set o b0).set (o + 1) b1).set (o + 2) b2).set (o + 3) b3).getD o 0 = b0 ∧
    ((((data.set o b0).set (o + 1) b1).set (o + 2) b2).set (o + 3) b3).getD (o + 1) 0 = b1 ∧
    ((((data.set o b0).set (o + 1) b1).set (o + 2) b2).set (o + 3) b3).getD (o + 2) 0 = b2 ∧
    ((((data.set o b0).set (o + 1) b1).set (o + 2) b2).set (o + 3) b3).getD (o + 3) 0 = b3 := by
  have key : ∀ (l : List Nat) (i a : Nat), i < l.length → (l.set i a)[i]?.getD 0 = a := by
    intro l i a hi
    rw [List.getElem?_set_eq_of_lt a hi]
    rfl
  refine ⟨?_, ?_, ?_, ?_⟩ <;>
    simp (disch := omega) [List.getD_eq_getElem?_getD, List.getElem?_set_ne] <;>
    exact key _ _ _ (by simp; omega)

/-- C1: Parsing the literal 70-byte Router Solicitation wire sequence
through the Ethernet, IPv6 and ICMPv6 layers and downcasting to
`RouterSolicitation` yields `msg_type() = 133`, `code() = 0` and
`reserved() = 0`. -/
theorem parse_router_solicitation_packet :
    ∃ env : Icmpv6 RouterSolicitation,
      parseRouterSolicitPipeline ROUTER_SOLICIT_PACKET = Except.ok env ∧
      env.msg_type = 133 ∧ env.code = 0 ∧ env.reserved = 0 :=
  ⟨⟨⟨ROUTER_SOLICIT_PACKET⟩, 54, 16⟩, by rfl, by decide, by decide, by decide⟩

/-- C2: `reserved()` reads the 4-byte reserved field big-endian at call
time, and it surfaces whatever value is present on the wire without
enforcing that the value is zero: every 32-bit value is realizable. -/
theorem reserved_reads_wire_value_be :
    (∀ p : Icmpv6 RouterSolicitation,
        p.reserved = p.buf.byteAt (p.offset + 4) * 2 ^ 24 +
          p.buf.byteAt (p.offset + 5) * 2 ^ 16 +
          p.buf.byteAt (p.offset + 6) * 2 ^ 8 +
          p.buf.byteAt (p.offset + 7)) ∧
    (∀ v : Nat, v < 2 ^ 32 →
        ∃ p : Icmpv6 RouterSolicitation, p.reserved = v) := by
  constructor
  · intro p
    simp [Icmpv6.reserved, Icmpv6.payload, Icmpv6.payloadBytes, u32FromBeBytes]
  · intro v hv
    refine ⟨⟨⟨[0, 0, 0, 0] ++ u32ToBeBytes v⟩, 0, 8⟩, ?_⟩
    have : u32FromBeBytes (u32ToBeBytes v) = v := u32_be_roundtrip v hv
    simpa [Icmpv6.reserved, Icmpv6.payload, Icmpv6.payloadBytes, Buf.byteAt,
      u32ToBeBytes, u32FromBeBytes] using this

/-- Witness for C2: a concrete nonzero wire value surfaces unchanged. -/
theorem reserved_reads_wire_value_be_witness :
    ∃ p : Icmpv6 RouterSolicitation, p.reserved = 305419896 :=
  reserved_reads_wire_value_be.2 305419896 (by decide)

/-- C3: `RouterSolicitation::size()` returns 4, which equals the
wire-format fixed payload length, so the options region begins 4 bytes
after the ICMPv6 fixed header — on the test frame the options remainder
is exactly the 8 source link-layer option bytes. -/
theorem size_matches_wire_payload_len :
    RouterSolicitation.size = 4 ∧
    RouterSolicitation.size = wireRouterSolicitationFixedPayloadLen ∧
    ∃ env : Icmpv6 RouterSolicitation,
      parseRouterSolicitPipeline ROUTER_SOLICIT_PACKET = Except.ok env ∧
      env.optionsBytes = [0x01, 0x01, 0x70, 0x3a, 0xcb, 0x1b, 0xf9, 0x7a] :=
  ⟨rfl, rfl, ⟨⟨ROUTER_SOLICIT_PACKET⟩, 54, 16⟩, by rfl, by decide⟩

/-- C4: downcasting a generically-typed envelope leaves `msg_type()`,
`code()` and `checksum()` unchanged, and the downcast shares the
underlying buffer unchanged — no bytes are copied. -/
theorem downcast_transparent {P : Type} (p : Icmpv6 Unit) :
    (Icmpv6.downcast p : Icmpv6 P).msg_type = p.msg_type ∧
    (Icmpv6.downcast p : Icmpv6 P).code = p.code ∧
    (Icmpv6.downcast p : Icmpv6 P).checksum = p.checksum ∧
    (Icmpv6.downcast p : Icmpv6 P).buf = p.buf :=
  ⟨rfl, rfl, rfl, rfl⟩

/-- C5: accessor calls depend only on the bytes inside the overlay's
declared 8-byte span (common header + fixed payload): two envelopes whose
buffers agree on that span produce identical `msg_type()`, `code()`,
`checksum()` and `reserved()` values, whatever the adjacent bytes hold. -/
theorem accessors_read_within_span (p q : Icmpv6 RouterSolicitation)
    (hoff : q.offset = p.offset)
    (hagree : ∀ i, i < ICMPV6_HEADER_SIZE + RouterSolicitation.size →
      q.buf.byteAt (p.offset + i) = p.buf.byteAt (p.offset + i)) :
    q.msg_type = p.msg_type ∧ q.code = p.code ∧ q.checksum = p.checksum ∧
      q.reserved = p.reserved := by
  have h0 := hagree 0 (by decide)
  have h1 := hagree 1 (by decide)
  have h2 := hagree 2 (by decide)
  have h3 := hagree 3 (by decide)
  have h4 := hagree 4 (by decide)
  have h5 := hagree 5 (by decide)
  have h6 := hagree 6 (by decide)
  have h7 := hagree 7 (by decide)
  simp only [Nat.add_zero] at h0
  refine ⟨?_, ?_, ?_, ?_⟩ <;>
    simp [Icmpv6.msg_type, Icmpv6.code, Icmpv6.checksum, Icmpv6.reserved,
      Icmpv6.payload, Icmpv6.payloadBytes, u32FromBeBytes, hoff,
      h0, h1, h2, h3, h4, h5, h6, h7]

/-- Witness for C5: two concrete buffers that agree on the 8-byte span
but differ beyond it give the same reserved value. -/
theorem accessors_read_within_span_witness :
    (⟨⟨[133, 0, 245, 12, 0, 0, 0, 1, 99]⟩, 0, 9⟩ :
        Icmpv6 RouterSolicitation).reserved =
      (⟨⟨[133, 0, 245, 12, 0, 0, 0, 1]⟩, 0, 8⟩ :
        Icmpv6 RouterSolicitation).reserved := by
  have h := accessors_read_within_span
    ⟨⟨[133, 0, 245, 12, 0, 0, 0, 1]⟩, 0, 8⟩
    ⟨⟨[133, 0, 245, 12, 0, 0, 0, 1, 99]⟩, 0, 9⟩
    rfl (by
      intro i hi
      simp [ICMPV6_HEADER_SIZE, RouterSolicitation.size] at hi
      interval_cases i <;> rfl)
  exact h.2.2.2

/-- Decidable equality of parse results, by case analysis on the two
constructors of `Except`. -/
instance {ε α : Type _} [DecidableEq ε] [DecidableEq α] :
    DecidableEq (Except ε α) := fun x y =>
  match x, y with
  | .ok a, .ok b =>
    if h : a = b then isTrue (by rw [h])
    else isFalse (by intro hc; injection hc; contradiction)
  | .error a, .error b =>
    if h : a = b then isTrue (by rw [h])
    else isFalse (by intro hc; injection hc; contradiction)
  | .ok _, .error _ => isFalse (by intro hc; injection hc)
  | .error _, .ok _ => isFalse (by intro hc; injection hc)

/-- C6: writing a 32-bit value through the reserved setter and reading it
back through `reserved()` returns the original value: the
host-to-big-endian write and big-endian-to-host read are mutual
inverses, whenever the payload span lies inside the buffer (the overlay
construction invariant). -/
theorem set_reserved_roundtrip (p : Icmpv6 RouterSolicitation) (v : Nat)
    (hv : v < 2 ^ 32)
    (hspan : p.offset + ICMPV6_HEADER_SIZE + RouterSolicitation.size ≤
      p.buf.data.length) :
    (p.set_reserved v).reserved = v := by
  obtain ⟨⟨data⟩, o, len⟩ := p
  simp only [ICMPV6_HEADER_SIZE, RouterSolicitation.size] at hspan
  have h4 : o + 4 + 4 ≤ data.length := by omega
  have key := getD_write4 data (o + 4) (v / 2 ^ 24 % 256) (v / 2 ^ 16 % 256)
    (v / 2 ^ 8 % 256) (v % 256) h4
  have e1 : o + 4 + 1 = o + 5 := by omega
  have e2 : o + 4 + 2 = o + 6 := by omega
  have e3 : o + 4 + 3 = o + 7 := by omega
  rw [e1, e2, e3] at key
  simp only [Icmpv6.set_reserved, Icmpv6.reserved, Icmpv6.payload,
    Icmpv6.payloadBytes, u32FromBeBytes, u32ToBeBytes, Buf.byteAt,
    List.getD_cons_succ, List.getD_cons_zero]
  rw [key.1, key.2.1, key.2.2.1, key.2.2.2]
  omega

/-- Witness for C6: a concrete round trip through an 8-byte buffer. -/
theorem set_reserved_roundtrip_witness :
    ((⟨⟨[133, 0, 245, 12, 0, 0, 0, 0]⟩, 0, 8⟩ :
        Icmpv6 RouterSolicitation).set_reserved 305419896).reserved =
      305419896 :=
  set_reserved_roundtrip ⟨⟨[133, 0, 245, 12, 0, 0, 0, 0]⟩, 0, 8⟩ 305419896
    (by decide) (by decide)

/-- C7: the rendering of an `Icmpv6<RouterSolicitation>` envelope emits
type, code, checksum and reserved in exactly that fixed order with the
checksum in hexadecimal — universally by the shape of the format string,
and concretely on the parsed test frame. -/
theorem display_emits_fields_in_order :
    (∀ p : Icmpv6 RouterSolicitation,
        p.display = "type: " ++ toString p.msg_type ++ " code: " ++
          toString p.code ++ " checksum: 0x" ++ hex4 p.checksum ++
          " reserved: " ++ toString p.reserved) ∧
    ∃ env : Icmpv6 RouterSolicitation,
      parseRouterSolicitPipeline ROUTER_SOLICIT_PACKET = Except.ok env ∧
      env.display = "type: 133 code: 0 checksum: 0xf50c reserved: 0" :=
  ⟨fun _ => rfl, ⟨⟨ROUTER_SOLICIT_PACKET⟩, 54, 16⟩, by rfl, by decide⟩

/-- C8 counterexample: truncating the 70-byte frame to its first 53
bytes does make the parse fail, but at the IPv6 stage — 53 bytes ends
inside the 40-byte IPv6 fixed header — not at the ICMPv6-payload stage
claimed by the scenario. -/
theorem truncated_53_fails_at_ipv6_stage :
    parseRouterSolicitPipeline (ROUTER_SOLICIT_PACKET.take 53) =
      Except.error (ParseError.TooShort ParseStage.ipv6) ∧
    parseRouterSolicitPipeline (ROUTER_SOLICIT_PACKET.take 53) ≠
      Except.error (ParseError.TooShort ParseStage.icmpv6Payload) :=
  ⟨by decide, by decide⟩

/-- C8 (amended): a 53-byte truncation cuts into the IPv6 fixed header
(Ethernet + IPv6 need 54 bytes) and fails there with `TooShort`; a
truncation that cuts into the 4-byte reserved payload — to 60 bytes —
fails at the ICMPv6-payload stage with `TooShort`.  Neither succeeds with
a zero-filled or partial payload. -/
theorem truncated_parse_fails_too_short :
    parseRouterSolicitPipeline (ROUTER_SOLICIT_PACKET.take 53) =
      Except.error (ParseError.TooShort ParseStage.ipv6) ∧
    parseRouterSolicitPipeline (ROUTER_SOLICIT_PACKET.take 60) =
      Except.error (ParseError.TooShort ParseStage.icmpv6Payload) :=
  ⟨by decide, by decide⟩

/-- C10: the derived `Default` instance of `RouterSolicitation` fills the
reserved field with zero, satisfying the sender-side rule of the wire
format. -/
theorem default_reserved_is_zero :
    RouterSolicitation.default.reserved = 0 :=
  rfl
